import Mathlib

/-!
Shallow embedding of the wire-frame codec of the match-engine command-line
client (sources: src/types.rs, src/encoding.rs, src/main.rs).

Bytes are modelled as `Nat` values, buffers as `List Nat`.  Multi-byte
integers are big-endian, as in the Rust `to_be_bytes`/`from_be_bytes` calls.
Fallible Rust functions returning `Result` are modelled with `Except String`.

The Rust serializers fill a zeroed 50-byte array by `copy_from_slice` writes
at consecutive offsets (2, 4, 12, ... for orders) and finally store the
checksum into byte 0.  Because the writes are contiguous and the checksum
only reads bytes 2..50, the resulting frame is literally
`checksum :: tag :: payload` with the payload the concatenation of the field
encodings in write order followed by the zero padding; the definitions below
use that concatenation form (right-nested), and the layout theorems recover
each field at its absolute byte offset.
-/

/-- Message type constant from types.rs: client to engine order submission. -/
def MSG_ORDER_SUBMIT : Nat := 1

/-- Message type constant from types.rs: client to engine order cancellation. -/
def MSG_ORDER_CANCEL : Nat := 2

/-- Message type constant from types.rs: engine to client trade broadcast. -/
def MSG_TRADE_BROADCAST : Nat := 10

/-- Message type constant from types.rs: engine to client status broadcast. -/
def MSG_STATUS_BROADCAST : Nat := 11

/-- All network packets are 50 bytes fixed size (types.rs). -/
def MESSAGE_TOTAL_SIZE : Nat := 50

/-- Order side constant from types.rs. -/
def ORDER_TYPE_BUY : Nat := 1

/-- Order side constant from types.rs. -/
def ORDER_TYPE_SELL : Nat := 2

/-- Price type constant from types.rs. -/
def ORDER_PRICE_TYPE_LIMIT : Nat := 1

/-- Price type constant from types.rs. -/
def ORDER_PRICE_TYPE_MARKET : Nat := 2

/-- Big-endian byte encoding of a `w`-byte machine integer, mirroring Rust
`to_be_bytes` (for `n` below `256 ^ w` the bytes are exactly the value's
base-256 digits, most significant first). -/
def toBeBytes : Nat → Nat → List Nat
  | 0, _ => []
  | w + 1, n => toBeBytes w (n / 256) ++ [n % 256]

/-- Big-endian byte decoding, mirroring Rust `from_be_bytes`. -/
def fromBeBytes (l : List Nat) : Nat :=
  l.foldl (fun acc b => acc * 256 + b) 0

/-- Model of reading the Rust slice `buf[start..start+len]`. -/
def readSlice (buf : List Nat) (start len : Nat) : List Nat :=
  (buf.drop start).take len

/-- encoding.rs `calculate_checksum`: XOR-fold over the payload
(index 2 onwards); bytes 0 (checksum) and 1 (tag) are excluded. -/
def calculate_checksum (buf : List Nat) : Nat :=
  (buf.drop 2).foldl (fun acc x => acc ^^^ x) 0

/-- types.rs `Order` structure (fields in declaration order). -/
structure Order where
  product_id : Nat
  order_id : Nat
  price : Nat
  quantity : Nat
  order_type : Nat
  price_type : Nat
  submit_time : Nat
  expire_time : Nat

/-- The 48-byte payload written by encoding.rs `serialize_order`:
product id at payload offset 0 (width 2), order id at 2 (width 8),
price at 10 (width 8), quantity at 18 (width 4), order type at 22,
price type at 23, submit time at 24 (width 8), expire time at 32 (width 8),
zero padding for the remaining 8 bytes. -/
def order_payload (order : Order) : List Nat :=
  toBeBytes 2 order.product_id ++
  (toBeBytes 8 order.order_id ++
  (toBeBytes 8 order.price ++
  (toBeBytes 4 order.quantity ++
  ([order.order_type] ++
  ([order.price_type] ++
  (toBeBytes 8 order.submit_time ++
  (toBeBytes 8 order.expire_time ++
  List.replicate 8 0)))))))

/-- encoding.rs `serialize_order`: the fixed 50-byte frame, tag
`MSG_ORDER_SUBMIT` at byte 1, the payload from byte 2, and byte 0 the
checksum the Rust code computes over the fully written buffer (whose byte 0
is still zero at that point) before storing it. -/
def serialize_order (order : Order) : List Nat :=
  calculate_checksum (0 :: MSG_ORDER_SUBMIT :: order_payload order) ::
    MSG_ORDER_SUBMIT :: order_payload order

/-- types.rs `MatchResult` structure (trade broadcast payload). -/
structure MatchResult where
  instance_tag : List Nat
  product_id : Nat
  buy_order_id : Nat
  sell_order_id : Nat
  price : Nat
  quantity : Nat
  trade_network_time : Nat
  internal_match_time : Nat

/-- types.rs `BroadcastStats` structure (status broadcast payload). -/
structure BroadcastStats where
  instance_tag : List Nat
  product_id : Nat
  bids_size : Nat
  ask_size : Nat
  matched_orders : Nat
  total_received_orders : Nat
  start_time : Nat

/-- encoding.rs `deserialize_match_result`: buffers of length below 50 are a
too-short error; otherwise the trade-broadcast fields are read at their fixed
absolute offsets 2, 10, 12, 20, 28, 36, 40, 44 (the running `current_idx` of
the Rust code). -/
def deserialize_match_result (buf : List Nat) : Except String MatchResult :=
  if buf.length < MESSAGE_TOTAL_SIZE then
    Except.error ("Buffer size is too small for MatchResult.")
  else
    Except.ok
      ⟨readSlice buf 2 8,
       fromBeBytes (readSlice buf 10 2),
       fromBeBytes (readSlice buf 12 8),
       fromBeBytes (readSlice buf 20 8),
       fromBeBytes (readSlice buf 28 8),
       fromBeBytes (readSlice buf 36 4),
       fromBeBytes (readSlice buf 40 4),
       fromBeBytes (readSlice buf 44 4)⟩

/-- encoding.rs `deserialize_stats_result`: buffers of length below 50 are a
too-short error; otherwise the status-broadcast fields are read at their
fixed absolute offsets 2, 10, 12, 16, 20, 24, 28. -/
def deserialize_stats_result (buf : List Nat) : Except String BroadcastStats :=
  if buf.length < MESSAGE_TOTAL_SIZE then
    Except.error ("Buffer size is too small for BroadcastStats.")
  else
    Except.ok
      ⟨readSlice buf 2 8,
       fromBeBytes (readSlice buf 10 2),
       fromBeBytes (readSlice buf 12 4),
       fromBeBytes (readSlice buf 16 4),
       fromBeBytes (readSlice buf 20 4),
       fromBeBytes (readSlice buf 24 4),
       fromBeBytes (readSlice buf 28 8)⟩

/-- The 48-byte payload written by types.rs `serialize_stats_result`:
instance tag at payload offset 0 (8 raw bytes), product id at 8 (width 2),
bids size at 10 (width 4), ask size at 14 (width 4), matched orders at 18
(width 4), total received orders at 22 (width 4), start time at 26
(width 8), zero padding for the remaining 14 bytes. -/
def stats_payload (stats : BroadcastStats) : List Nat :=
  stats.instance_tag ++
  (toBeBytes 2 stats.product_id ++
  (toBeBytes 4 stats.bids_size ++
  (toBeBytes 4 stats.ask_size ++
  (toBeBytes 4 stats.matched_orders ++
  (toBeBytes 4 stats.total_received_orders ++
  (toBeBytes 8 stats.start_time ++
  List.replicate 14 0))))))

/-- types.rs `serialize_stats_result`: tag `MSG_STATUS_BROADCAST` at byte 1,
the status payload from byte 2, checksum stored into byte 0 last. -/
def serialize_stats_result (stats : BroadcastStats) : List Nat :=
  calculate_checksum (0 :: MSG_STATUS_BROADCAST :: stats_payload stats) ::
    MSG_STATUS_BROADCAST :: stats_payload stats

/-- Model of the Rust `Debug` rendering of a byte slice, as produced by the
formatting placeholder in encoding.rs: decimal bytes, comma separated, in
square brackets. -/
def rustDebugBytes (l : List Nat) : String :=
  "[" ++ String.intercalate ", " (l.map toString) ++ "]"

/-- The trade summary string built by encoding.rs `decode_broadcast_message`
for tag 10 (format reproduced verbatim, including the missing space before
the Net column). -/
def format_trade (r : MatchResult) : String :=
  "🔥 TRADE: Product=" ++ toString r.product_id ++
  " | Price=" ++ toString r.price ++
  " | Qty=" ++ toString r.quantity ++
  " | BuyID=" ++ toString r.buy_order_id ++
  " | SellId=" ++ toString r.sell_order_id ++
  "| Net=" ++ toString r.trade_network_time ++
  "ns | Match=" ++ toString r.internal_match_time ++ "ns"

/-- The status summary string built by encoding.rs `decode_broadcast_message`
for tag 11. -/
def format_stats (s : BroadcastStats) : String :=
  "📊 STATUS: Product=" ++ toString s.product_id ++
  " | Bids=" ++ toString s.bids_size ++
  " | Asks=" ++ toString s.ask_size ++
  " | Matched=" ++ toString s.matched_orders ++
  " | Received=" ++ toString s.total_received_orders

/-- encoding.rs `decode_broadcast_message`: length guard, then dispatch on
the tag byte `buf[1]`; tag 10 decodes a trade, tag 11 decodes a status,
anything else is the unknown-tag error reporting the whole received buffer. -/
def decode_broadcast_message (buf : List Nat) : Except String String :=
  if buf.length < MESSAGE_TOTAL_SIZE then
    Except.error ("Received buffer is too small.")
  else if buf.getD 1 0 = MSG_TRADE_BROADCAST then
    match deserialize_match_result buf with
    | Except.error e => Except.error ("Failed to decode MatchResult: " ++ e)
    | Except.ok result => Except.ok (format_trade result)
  else if buf.getD 1 0 = MSG_STATUS_BROADCAST then
    match deserialize_stats_result buf with
    | Except.error e => Except.error ("Failed to decode BroadcastStats: " ++ e)
    | Except.ok stats => Except.ok (format_stats stats)
  else
    Except.error ("Unknown or unhandled message type: " ++ rustDebugBytes buf)

/-- main.rs `handle_submit`, expiry computation: for `expire > 0` the code
runs `expire.checked_mul(1_000_000_000)` and then `submit_time.checked_add`,
each overflow (result not representable in u64) aborting the operation with
the corresponding error; `expire == 0` yields 0 (good-till-cancelled). -/
def computeExpireTime (expire submit_time : Nat) : Except String Nat :=
  if 0 < expire then
    if expire * 1000000000 < 2 ^ 64 then
      if submit_time + expire * 1000000000 < 2 ^ 64 then
        Except.ok (submit_time + expire * 1000000000)
      else Except.error ("Expiration time overflow")
    else Except.error ("Expiration duration overflow")
  else Except.ok 0

/-- main.rs `handle_submit` up to the successful send: computes the checked
expiry timestamp — whose value the Rust code then never uses — sets
`order_id := submit_time`, and builds the `Order` whose `expire_time` field
is the literal `submit_time + 1000*1000*1000` (a plain u64 addition, modelled
wrapping).  An `Except.ok` result is the serialized frame handed to the send
function; an `Except.error` result means nothing is serialized or sent. -/
def handle_submit (product_id price quantity order_type price_type expire
    submit_time : Nat) : Except String (List Nat) :=
  (computeExpireTime expire submit_time).map (fun _expire_time =>
    serialize_order
      ⟨product_id, submit_time, price, quantity, order_type, price_type,
       submit_time, (submit_time + 1000 * 1000 * 1000) % 2 ^ 64⟩)

/-- The 48-byte payload written by main.rs `handle_cancel`: the 8-byte order
id from payload offset 0, the remaining 40 bytes zero. -/
def cancel_payload (order_id : Nat) : List Nat :=
  toBeBytes 8 order_id ++ List.replicate 40 0

/-- main.rs `handle_cancel`, frame construction: zero buffer, tag
`MSG_ORDER_CANCEL` at byte 1, the big-endian order id from byte 2, checksum
stored into byte 0 last. -/
def handle_cancel (order_id : Nat) : List Nat :=
  calculate_checksum (0 :: MSG_ORDER_CANCEL :: cancel_payload order_id) ::
    MSG_ORDER_CANCEL :: cancel_payload order_id

/-- Modelled from the spec: the repository defines no checksum verifier
(spec section 4.1 `verifyChecksum`, missing from src/): recompute the
XOR-fold over bytes 2..50 and compare with byte 0. -/
def verify_checksum (buf : List Nat) : Bool :=
  decide (buf.getD 0 0 = calculate_checksum buf)

/-- Modelled from the spec: the repository defines no OrderSubmit decoder
(spec section 8 presumes a symmetric field-wise decoder, missing from src/);
it reads the OrderSubmit schema fields at the offsets where
`serialize_order` wrote them. -/
def deserialize_order (buf : List Nat) : Except String Order :=
  if buf.length < MESSAGE_TOTAL_SIZE then
    Except.error ("Buffer size is too small for Order.")
  else
    Except.ok
      ⟨fromBeBytes (readSlice buf 2 2),
       fromBeBytes (readSlice buf 4 8),
       fromBeBytes (readSlice buf 12 8),
       fromBeBytes (readSlice buf 20 4),
       buf.getD 24 0,
       buf.getD 25 0,
       fromBeBytes (readSlice buf 26 8),
       fromBeBytes (readSlice buf 34 8)⟩

/-- Success test for an `Except` result. -/
def exceptIsOk {ε α : Type} : Except ε α → Bool
  | Except.ok _ => true
  | Except.error _ => false

/-- Appending one byte to a big-endian byte string multiplies its value
by 256 and adds the byte. -/
theorem fromBeBytes_append (l : List Nat) (x : Nat) :
    fromBeBytes (l ++ [x]) = fromBeBytes l * 256 + x := by
  simp [fromBeBytes, List.foldl_append]

/-- Big-endian serialization of a `w`-byte value followed by big-endian
deserialization is the identity. -/
theorem fromBeBytes_toBeBytes (w : Nat) :
    ∀ n, n < 256 ^ w → fromBeBytes (toBeBytes w n) = n := by
  induction w with
  | zero =>
    intro n h
    have h0 : n = 0 := by simpa using Nat.lt_one_iff.mp (by simpa using h)
    subst h0
    rfl
  | succ w ih =>
    intro n h
    have hdiv : n / 256 < 256 ^ w := by
      rw [Nat.div_lt_iff_lt_mul (by norm_num : 0 < 256)]
      calc n < 256 ^ (w + 1) := h
        _ = 256 ^ w * 256 := by rw [pow_succ]
    show fromBeBytes (toBeBytes w (n / 256) ++ [n % 256]) = n
    rw [fromBeBytes_append, ih (n / 256) hdiv]
    omega

/-- Pulling an XOR out of the accumulator of the checksum fold. -/
theorem foldl_xor_extract (l : List Nat) : ∀ a b : Nat,
    l.foldl (fun acc x => acc ^^^ x) (a ^^^ b) =
    (l.foldl (fun acc x => acc ^^^ x) a) ^^^ b := by
  induction l with
  | nil => intro a b; rfl
  | cons x t ih =>
    intro a b
    simp only [List.foldl_cons]
    rw [show (a ^^^ b) ^^^ x = (a ^^^ x) ^^^ b from by
      rw [Nat.xor_assoc, Nat.xor_assoc, Nat.xor_comm b x]]
    exact ih (a ^^^ x) b

/-- XOR-ing a mask into one element of a list XORs the mask into the
fold of the list. -/
theorem foldl_xor_set : ∀ (l : List Nat) (j a m : Nat), j < l.length →
    (l.set j ((l.getD j 0) ^^^ m)).foldl (fun acc x => acc ^^^ x) a =
    (l.foldl (fun acc x => acc ^^^ x) a) ^^^ m := by
  intro l
  induction l with
  | nil => intro j a m h; simp at h
  | cons x t ih =>
    intro j a m h
    cases j with
    | zero =>
      show ((x ^^^ m) :: t).foldl (fun acc x => acc ^^^ x) a = _
      simp only [List.foldl_cons]
      rw [← Nat.xor_assoc]
      exact foldl_xor_extract t (a ^^^ x) m
    | succ j =>
      show (x :: t.set j ((t.getD j 0) ^^^ m)).foldl (fun acc x => acc ^^^ x) a = _
      simp only [List.foldl_cons]
      exact ih j (a ^^^ x) m (by simpa using h)

/-- A list of length 8 is an explicit 8-element list. -/
theorem exists_eight (l : List Nat) (h : l.length = 8) :
    ∃ a b c d e f g i, l = [a, b, c, d, e, f, g, i] := by
  rcases l with _ | ⟨a, _ | ⟨b, _ | ⟨c, _ | ⟨d, _ | ⟨e, _ | ⟨f, _ | ⟨g, _ | ⟨i, rest⟩⟩⟩⟩⟩⟩⟩⟩ <;>
    simp only [List.length_cons, List.length_nil] at h
  · omega
  · omega
  · omega
  · omega
  · omega
  · omega
  · omega
  · omega
  · have hr : rest = [] := List.eq_nil_of_length_eq_zero (by omega)
    subst hr
    exact ⟨a, b, c, d, e, f, g, i, rfl⟩

/-- C2: `serialize_order` always yields a 50-byte frame carrying tag 1 at
byte 1, the big-endian fields at absolute offsets 2 (product id, width 2),
4 (order id, 8), 12 (price, 8), 20 (quantity, 4), 24 (side), 25 (price
kind), 26 (submit time, 8), 34 (expire time, 8), zero in the remaining 8
payload bytes, and byte 0 equal to the XOR-fold checksum of bytes 2..50 of
the finished frame. -/
theorem serialize_order_layout (o : Order) :
    (serialize_order o).length = 50 ∧
    (serialize_order o).getD 1 0 = 1 ∧
    readSlice (serialize_order o) 2 2 = toBeBytes 2 o.product_id ∧
    readSlice (serialize_order o) 4 8 = toBeBytes 8 o.order_id ∧
    readSlice (serialize_order o) 12 8 = toBeBytes 8 o.price ∧
    readSlice (serialize_order o) 20 4 = toBeBytes 4 o.quantity ∧
    (serialize_order o).getD 24 0 = o.order_type ∧
    (serialize_order o).getD 25 0 = o.price_type ∧
    readSlice (serialize_order o) 26 8 = toBeBytes 8 o.submit_time ∧
    readSlice (serialize_order o) 34 8 = toBeBytes 8 o.expire_time ∧
    readSlice (serialize_order o) 42 8 = List.replicate 8 0 ∧
    (serialize_order o).getD 0 0 = calculate_checksum (serialize_order o) :=
  ⟨rfl, rfl, rfl, rfl, rfl, rfl, rfl, rfl, rfl, rfl, rfl, rfl⟩

/-- C7: `handle_cancel` yields a 50-byte frame with tag 2 at byte 1, the
big-endian order id in bytes 2..10, zeros in bytes 10..50, and byte 0 equal
to the recomputed XOR-fold checksum of bytes 2..50. -/
theorem handle_cancel_layout (order_id : Nat) :
    (handle_cancel order_id).length = 50 ∧
    (handle_cancel order_id).getD 1 0 = 2 ∧
    readSlice (handle_cancel order_id) 2 8 = toBeBytes 8 order_id ∧
    readSlice (handle_cancel order_id) 10 40 = List.replicate 40 0 ∧
    (handle_cancel order_id).getD 0 0 = calculate_checksum (handle_cancel order_id) :=
  ⟨rfl, rfl, rfl, rfl, rfl⟩

/-- C1: evaluation of `handle_submit` at the failing inputs.  With expiry 0
and submit time 1000000000 the encoded expire-time field (bytes 34..42) is
2000000000, not the 0 the specification requires for good-till-cancelled;
with expiry 5 seconds it is again 2000000000, not
1000000000 + 5 * 1000000000.  The code hardcodes
`submit_time + 1000*1000*1000` and discards the checked expiry value. -/
theorem submit_expire_hardcoded :
    (handle_submit 7 50000 3 1 1 0 1000000000).map (fun f => readSlice f 34 8) =
      Except.ok (toBeBytes 8 2000000000) ∧
    (handle_submit 7 50000 3 1 1 5 1000000000).map (fun f => readSlice f 34 8) =
      Except.ok (toBeBytes 8 2000000000) ∧
    toBeBytes 8 2000000000 ≠ toBeBytes 8 0 ∧
    toBeBytes 8 2000000000 ≠ toBeBytes 8 (1000000000 + 5 * 1000000000) :=
  ⟨rfl, rfl, by decide, by decide⟩

/-- Frames of orders whose order id equals their submit time carry equal
byte slices at offsets 4..12 and 26..34. -/
theorem serialize_slices_eq (o : Order) (h : o.order_id = o.submit_time) :
    readSlice (serialize_order o) 4 8 = readSlice (serialize_order o) 26 8 := by
  have e1 : readSlice (serialize_order o) 4 8 = toBeBytes 8 o.order_id := rfl
  have e2 : readSlice (serialize_order o) 26 8 = toBeBytes 8 o.submit_time := rfl
  rw [e1, e2, h]

/-- C10: every frame `handle_submit` returns encodes the order id (bytes
4..12) equal to the submit-time field (bytes 26..34): the order id is not
caller-supplied, it is the submission timestamp. -/
theorem order_id_is_submit_time (product_id price quantity order_type
    price_type expire submit_time : Nat) (frame : List Nat)
    (h : handle_submit product_id price quantity order_type price_type expire
      submit_time = Except.ok frame) :
    readSlice frame 4 8 = readSlice frame 26 8 := by
  unfold handle_submit at h
  cases hc : computeExpireTime expire submit_time with
  | error e => rw [hc] at h; simp [Except.map] at h
  | ok v =>
    rw [hc] at h
    simp only [Except.map] at h
    injection h with h2
    rw [← h2]
    exact serialize_slices_eq _ rfl

/-- C10 witness: applying the theorem to a concrete successful submit. -/
theorem order_id_is_submit_time_witness :
    readSlice (serialize_order
      ⟨7, 5, 50000, 3, 1, 1, 5, (5 + 1000 * 1000 * 1000) % 2 ^ 64⟩) 4 8 =
    readSlice (serialize_order
      ⟨7, 5, 50000, 3, 1, 1, 5, (5 + 1000 * 1000 * 1000) % 2 ^ 64⟩) 26 8 :=
  order_id_is_submit_time 7 50000 3 1 1 0 5 _ rfl

/-- C8: if the checked expiry computation of `handle_submit` overflows u64 —
either `expire * 1_000_000_000` or `submit_time + expire_nanos` — the
operation returns the corresponding validation error and no frame is
produced, so the send function is never invoked. -/
theorem submit_overflow_no_send (product_id price quantity order_type
    price_type expire submit_time : Nat) :
    (2 ^ 64 ≤ expire * 1000000000 →
      handle_submit product_id price quantity order_type price_type expire
        submit_time = Except.error ("Expiration duration overflow")) ∧
    (0 < expire → expire * 1000000000 < 2 ^ 64 →
      2 ^ 64 ≤ submit_time + expire * 1000000000 →
      handle_submit product_id price quantity order_type price_type expire
        submit_time = Except.error ("Expiration time overflow")) := by
  constructor
  · intro h
    have hpos : 0 < expire := by
      rcases Nat.eq_zero_or_pos expire with h0 | h0
      · rw [h0] at h; omega
      · exact h0
    unfold handle_submit computeExpireTime
    rw [if_pos hpos, if_neg (by omega)]
    rfl
  · intro h1 h2 h3
    unfold handle_submit computeExpireTime
    rw [if_pos h1, if_pos h2, if_neg (by omega)]
    rfl

/-- C8 witness: concrete overflowing submits for both checked operations. -/
theorem submit_overflow_no_send_witness :
    handle_submit 1 2 3 1 1 18446744074 0 =
      Except.error ("Expiration duration overflow") ∧
    handle_submit 1 2 3 1 1 1 18446744073709551615 =
      Except.error ("Expiration time overflow") :=
  ⟨(submit_overflow_no_send 1 2 3 1 1 18446744074 0).1 (by decide),
   (submit_overflow_no_send 1 2 3 1 1 1 18446744073709551615).2
     (by decide) (by decide) (by decide)⟩

/-- C3: for all OrderSubmit fields within their declared widths, the
symmetric field-wise decoder recovers every field of the serialized frame
exactly, and checksum verification of that frame succeeds. -/
theorem order_roundtrip (o : Order) (h1 : o.product_id < 256 ^ 2)
    (h2 : o.order_id < 256 ^ 8) (h3 : o.price < 256 ^ 8)
    (h4 : o.quantity < 256 ^ 4) (h5 : o.submit_time < 256 ^ 8)
    (h6 : o.expire_time < 256 ^ 8) :
    deserialize_order (serialize_order o) = Except.ok o ∧
    verify_checksum (serialize_order o) = true := by
  obtain ⟨pid, oid, pr, qt, ot, pt, st, et⟩ := o
  constructor
  · have hlen : ¬ ((serialize_order ⟨pid, oid, pr, qt, ot, pt, st, et⟩).length <
        MESSAGE_TOTAL_SIZE) := by
      show ¬ (50 < 50)
      omega
    unfold deserialize_order
    rw [if_neg hlen]
    refine congrArg Except.ok ?_
    have r1 : readSlice (serialize_order ⟨pid, oid, pr, qt, ot, pt, st, et⟩) 2 2 =
        toBeBytes 2 pid := rfl
    have r2 : readSlice (serialize_order ⟨pid, oid, pr, qt, ot, pt, st, et⟩) 4 8 =
        toBeBytes 8 oid := rfl
    have r3 : readSlice (serialize_order ⟨pid, oid, pr, qt, ot, pt, st, et⟩) 12 8 =
        toBeBytes 8 pr := rfl
    have r4 : readSlice (serialize_order ⟨pid, oid, pr, qt, ot, pt, st, et⟩) 20 4 =
        toBeBytes 4 qt := rfl
    have r5 : (serialize_order ⟨pid, oid, pr, qt, ot, pt, st, et⟩).getD 24 0 = ot := rfl
    have r6 : (serialize_order ⟨pid, oid, pr, qt, ot, pt, st, et⟩).getD 25 0 = pt := rfl
    have r7 : readSlice (serialize_order ⟨pid, oid, pr, qt, ot, pt, st, et⟩) 26 8 =
        toBeBytes 8 st := rfl
    have r8 : readSlice (serialize_order ⟨pid, oid, pr, qt, ot, pt, st, et⟩) 34 8 =
        toBeBytes 8 et := rfl
    rw [r1, r2, r3, r4, r5, r6, r7, r8,
      fromBeBytes_toBeBytes 2 pid h1, fromBeBytes_toBeBytes 8 oid h2,
      fromBeBytes_toBeBytes 8 pr h3, fromBeBytes_toBeBytes 4 qt h4,
      fromBeBytes_toBeBytes 8 st h5, fromBeBytes_toBeBytes 8 et h6]
  · exact decide_eq_true rfl

/-- C3 witness: the spec's OrderSubmit scenario values round-trip and the
frame's checksum verifies. -/
theorem order_roundtrip_witness :
    deserialize_order (serialize_order ⟨7, 1000, 50000, 3, 1, 1, 1000000000, 0⟩) =
      Except.ok ⟨7, 1000, 50000, 3, 1, 1, 1000000000, 0⟩ ∧
    verify_checksum (serialize_order ⟨7, 1000, 50000, 3, 1, 1, 1000000000, 0⟩) = true :=
  order_roundtrip ⟨7, 1000, 50000, 3, 1, 1, 1000000000, 0⟩ (by decide) (by decide)
    (by decide) (by decide) (by decide) (by decide)

/-- C4 (amended): both broadcast decoders fail with their too-short error
exactly on buffers shorter than 50 bytes (never returning a value there);
on any buffer of length at least 50 they succeed, reading each field at its
fixed offset, and they still succeed whatever the checksum byte holds. -/
theorem decode_length_behavior (buf : List Nat) :
    (buf.length < 50 →
      deserialize_match_result buf =
        Except.error ("Buffer size is too small for MatchResult.") ∧
      deserialize_stats_result buf =
        Except.error ("Buffer size is too small for BroadcastStats.")) ∧
    (50 ≤ buf.length →
      deserialize_match_result buf = Except.ok
        ⟨readSlice buf 2 8, fromBeBytes (readSlice buf 10 2),
         fromBeBytes (readSlice buf 12 8), fromBeBytes (readSlice buf 20 8),
         fromBeBytes (readSlice buf 28 8), fromBeBytes (readSlice buf 36 4),
         fromBeBytes (readSlice buf 40 4), fromBeBytes (readSlice buf 44 4)⟩ ∧
      deserialize_stats_result buf = Except.ok
        ⟨readSlice buf 2 8, fromBeBytes (readSlice buf 10 2),
         fromBeBytes (readSlice buf 12 4), fromBeBytes (readSlice buf 16 4),
         fromBeBytes (readSlice buf 20 4), fromBeBytes (readSlice buf 24 4),
         fromBeBytes (readSlice buf 28 8)⟩ ∧
      ∀ c : Nat, exceptIsOk (deserialize_match_result (buf.set 0 c)) = true ∧
        exceptIsOk (deserialize_stats_result (buf.set 0 c)) = true) := by
  constructor
  · intro h
    constructor
    · unfold deserialize_match_result
      rw [if_pos (show buf.length < MESSAGE_TOTAL_SIZE from h)]
    · unfold deserialize_stats_result
      rw [if_pos (show buf.length < MESSAGE_TOTAL_SIZE from h)]
  · intro h
    have hnl : ¬ (buf.length < MESSAGE_TOTAL_SIZE) := by
      show ¬ (buf.length < 50)
      omega
    refine ⟨?_, ?_, ?_⟩
    · unfold deserialize_match_result
      rw [if_neg hnl]
    · unfold deserialize_stats_result
      rw [if_neg hnl]
    · intro c
      have hnl2 : ¬ ((buf.set 0 c).length < MESSAGE_TOTAL_SIZE) := by
        show ¬ ((buf.set 0 c).length < 50)
        rw [List.length_set]
        omega
      constructor
      · unfold deserialize_match_result
        rw [if_neg hnl2]
        rfl
      · unfold deserialize_stats_result
        rw [if_neg hnl2]
        rfl

/-- C4 witness: a 49-byte buffer is rejected as too short, and a 50-byte
buffer still decodes after its checksum byte is overwritten. -/
theorem decode_length_behavior_witness :
    deserialize_match_result (List.replicate 49 0) =
      Except.error ("Buffer size is too small for MatchResult.") ∧
    exceptIsOk (deserialize_match_result ((List.replicate 50 0).set 0 7)) = true :=
  ⟨((decode_length_behavior (List.replicate 49 0)).1 (by decide)).1,
   (((decode_length_behavior (List.replicate 50 0)).2 (by decide)).2.2 7).1⟩

/-- C4 counterexample: a 51-byte buffer does not have length 50, yet both
decoders succeed on it, refuting the claim that decoding fails whenever the
length differs from 50. -/
theorem decode_not_length50_counterexample :
    (List.replicate 51 0).length ≠ 50 ∧
    exceptIsOk (deserialize_match_result (List.replicate 51 0)) = true ∧
    exceptIsOk (deserialize_stats_result (List.replicate 51 0)) = true := by
  refine ⟨by decide, ?_, ?_⟩ <;> rfl

/-- C5: on a 50-byte frame, `decode_broadcast_message` with tag byte 10
returns exactly the trade decoder's result rendered as the trade summary
string, with tag 11 exactly the status decoder's result rendered as the
status summary string, and with any other tag the recoverable unknown-tag
error that reports the full received bytes; being a total function it never
panics. -/
theorem decode_dispatch (buf : List Nat) (h : buf.length = 50) :
    (buf.getD 1 0 = MSG_TRADE_BROADCAST →
      decode_broadcast_message buf =
        Except.map format_trade (deserialize_match_result buf)) ∧
    (buf.getD 1 0 = MSG_STATUS_BROADCAST →
      decode_broadcast_message buf =
        Except.map format_stats (deserialize_stats_result buf)) ∧
    (buf.getD 1 0 ≠ MSG_TRADE_BROADCAST → buf.getD 1 0 ≠ MSG_STATUS_BROADCAST →
      decode_broadcast_message buf =
        Except.error ("Unknown or unhandled message type: " ++ rustDebugBytes buf)) := by
  have hnl : ¬ (buf.length < MESSAGE_TOTAL_SIZE) := by
    show ¬ (buf.length < 50)
    omega
  have hd : deserialize_match_result buf = Except.ok
      ⟨readSlice buf 2 8, fromBeBytes (readSlice buf 10 2),
       fromBeBytes (readSlice buf 12 8), fromBeBytes (readSlice buf 20 8),
       fromBeBytes (readSlice buf 28 8), fromBeBytes (readSlice buf 36 4),
       fromBeBytes (readSlice buf 40 4), fromBeBytes (readSlice buf 44 4)⟩ := by
    unfold deserialize_match_result
    rw [if_neg hnl]
  have hs : deserialize_stats_result buf = Except.ok
      ⟨readSlice buf 2 8, fromBeBytes (readSlice buf 10 2),
       fromBeBytes (readSlice buf 12 4), fromBeBytes (readSlice buf 16 4),
       fromBeBytes (readSlice buf 20 4), fromBeBytes (readSlice buf 24 4),
       fromBeBytes (readSlice buf 28 8)⟩ := by
    unfold deserialize_stats_result
    rw [if_neg hnl]
  refine ⟨?_, ?_, ?_⟩
  · intro h10
    unfold decode_broadcast_message
    rw [if_neg hnl, if_pos h10, hd]
    rfl
  · intro h11
    unfold decode_broadcast_message
    rw [if_neg hnl, if_neg (by rw [h11]; decide), if_pos h11, hs]
    rfl
  · intro h10 h11
    unfold decode_broadcast_message
    rw [if_neg hnl, if_neg h10, if_neg h11]

/-- C5 witness: a concrete 50-byte tag-10 frame routes to the trade decoder. -/
theorem decode_dispatch_witness :
    decode_broadcast_message (0 :: 10 :: List.replicate 48 0) =
      Except.map format_trade (deserialize_match_result (0 :: 10 :: List.replicate 48 0)) :=
  (decode_dispatch (0 :: 10 :: List.replicate 48 0) (by decide)).1 (by decide)

/-- C6: flipping any single bit of any byte in the checksum domain (bytes
2..50) of a valid 50-byte frame makes checksum verification fail, while the
computed XOR-fold is entirely independent of the values of bytes 0 and 1. -/
theorem checksum_sensitivity :
    (∀ (buf : List Nat) (i k : Nat), buf.length = 50 → 2 ≤ i → i < 50 → k < 8 →
      verify_checksum buf = true →
      verify_checksum (buf.set i ((buf.getD i 0) ^^^ 2 ^ k)) = false) ∧
    (∀ (b0 b1 c0 c1 : Nat) (rest : List Nat),
      calculate_checksum (b0 :: b1 :: rest) = calculate_checksum (c0 :: c1 :: rest)) := by
  constructor
  · intro buf i k hlen h2 h50 hk hv
    rcases buf with _ | ⟨b0, buf⟩
    · simp at hlen
    rcases buf with _ | ⟨b1, rest⟩
    · simp at hlen
    have hrest : rest.length = 48 := by
      simp only [List.length_cons] at hlen
      omega
    obtain ⟨j, rfl⟩ : ∃ j, i = j + 2 := ⟨i - 2, by omega⟩
    have hb0 : b0 = rest.foldl (fun acc x => acc ^^^ x) 0 := of_decide_eq_true hv
    show decide (b0 = (rest.set j ((rest.getD j 0) ^^^ 2 ^ k)).foldl
      (fun acc x => acc ^^^ x) 0) = false
    rw [foldl_xor_set rest j 0 (2 ^ k) (by omega), ← hb0]
    apply decide_eq_false
    intro heq
    have h0 : (2 : Nat) ^ k = 0 := by
      have hx := congrArg (fun x => b0 ^^^ x) heq.symm
      simp [← Nat.xor_assoc, Nat.xor_self, Nat.zero_xor] at hx
    exact absurd h0 (Nat.pos_iff_ne_zero.mp (pow_pos (by norm_num) k))
  · intro b0 b1 c0 c1 rest
    rfl

/-- C6 witness: flipping bit 0 of byte 2 of the all-zero valid frame breaks
verification, and the checksum ignores bytes 0 and 1. -/
theorem checksum_sensitivity_witness :
    verify_checksum ((List.replicate 50 0).set 2
      (((List.replicate 50 0).getD 2 0) ^^^ 2 ^ 0)) = false ∧
    calculate_checksum (5 :: 7 :: [1, 2]) = calculate_checksum (0 :: 0 :: [1, 2]) :=
  ⟨checksum_sensitivity.1 (List.replicate 50 0) 2 0 (by decide) (by decide)
      (by decide) (by decide) (by decide),
   checksum_sensitivity.2 5 7 0 0 [1, 2]⟩

/-- C9: for every status broadcast value with fields inside their declared
widths, deserializing its serialization reproduces every field exactly, the
frame carries tag 11 at byte 1, and byte 0 equals the XOR-fold checksum of
bytes 2..50. -/
theorem stats_roundtrip (s : BroadcastStats) (htag : s.instance_tag.length = 8)
    (h1 : s.product_id < 256 ^ 2) (h2 : s.bids_size < 256 ^ 4)
    (h3 : s.ask_size < 256 ^ 4) (h4 : s.matched_orders < 256 ^ 4)
    (h5 : s.total_received_orders < 256 ^ 4) (h6 : s.start_time < 256 ^ 8) :
    deserialize_stats_result (serialize_stats_result s) = Except.ok s ∧
    (serialize_stats_result s).getD 1 0 = 11 ∧
    (serialize_stats_result s).getD 0 0 =
      calculate_checksum (serialize_stats_result s) := by
  obtain ⟨tag, pid, bids, ask, mat, tot, st⟩ := s
  obtain ⟨a, b, c, d, e, f, g, i, rfl⟩ := exists_eight tag htag
  refine ⟨?_, rfl, rfl⟩
  have hlen : ¬ ((serialize_stats_result
      ⟨[a, b, c, d, e, f, g, i], pid, bids, ask, mat, tot, st⟩).length <
      MESSAGE_TOTAL_SIZE) := by
    show ¬ (50 < 50)
    omega
  unfold deserialize_stats_result
  rw [if_neg hlen]
  refine congrArg Except.ok ?_
  have r0 : readSlice (serialize_stats_result
      ⟨[a, b, c, d, e, f, g, i], pid, bids, ask, mat, tot, st⟩) 2 8 =
      [a, b, c, d, e, f, g, i] := rfl
  have r1 : readSlice (serialize_stats_result
      ⟨[a, b, c, d, e, f, g, i], pid, bids, ask, mat, tot, st⟩) 10 2 =
      toBeBytes 2 pid := rfl
  have r2 : readSlice (serialize_stats_result
      ⟨[a, b, c, d, e, f, g, i], pid, bids, ask, mat, tot, st⟩) 12 4 =
      toBeBytes 4 bids := rfl
  have r3 : readSlice (serialize_stats_result
      ⟨[a, b, c, d, e, f, g, i], pid, bids, ask, mat, tot, st⟩) 16 4 =
      toBeBytes 4 ask := rfl
  have r4 : readSlice (serialize_stats_result
      ⟨[a, b, c, d, e, f, g, i], pid, bids, ask, mat, tot, st⟩) 20 4 =
      toBeBytes 4 mat := rfl
  have r5 : readSlice (serialize_stats_result
      ⟨[a, b, c, d, e, f, g, i], pid, bids, ask, mat, tot, st⟩) 24 4 =
      toBeBytes 4 tot := rfl
  have r6 : readSlice (serialize_stats_result
      ⟨[a, b, c, d, e, f, g, i], pid, bids, ask, mat, tot, st⟩) 28 8 =
      toBeBytes 8 st := rfl
  rw [r0, r1, r2, r3, r4, r5, r6,
    fromBeBytes_toBeBytes 2 pid h1, fromBeBytes_toBeBytes 4 bids h2,
    fromBeBytes_toBeBytes 4 ask h3, fromBeBytes_toBeBytes 4 mat h4,
    fromBeBytes_toBeBytes 4 tot h5, fromBeBytes_toBeBytes 8 st h6]

/-- C9 witness: a concrete status broadcast round-trips through the codec. -/
theorem stats_roundtrip_witness :
    deserialize_stats_result (serialize_stats_result
      ⟨[1, 2, 3, 4, 5, 6, 7, 8], 7, 10, 20, 30, 40, 123456789⟩) =
      Except.ok ⟨[1, 2, 3, 4, 5, 6, 7, 8], 7, 10, 20, 30, 40, 123456789⟩ ∧
    (serialize_stats_result
      ⟨[1, 2, 3, 4, 5, 6, 7, 8], 7, 10, 20, 30, 40, 123456789⟩).getD 1 0 = 11 ∧
    (serialize_stats_result
      ⟨[1, 2, 3, 4, 5, 6, 7, 8], 7, 10, 20, 30, 40, 123456789⟩).getD 0 0 =
      calculate_checksum (serialize_stats_result
        ⟨[1, 2, 3, 4, 5, 6, 7, 8], 7, 10, 20, 30, 40, 123456789⟩) :=
  stats_roundtrip ⟨[1, 2, 3, 4, 5, 6, 7, 8], 7, 10, 20, 30, 40, 123456789⟩
    (by decide) (by decide) (by decide) (by decide) (by decide) (by decide)
    (by decide)
